import Mathlib

/-!
Verification of the Hide & Seek game engine.

Shallow embedding of the Python sources (`world.py`, `player.py`,
`game_logic.py`, `lp_solver.py`, `simulation.py`).  Machine reals are
modelled by `ℚ` (all payoff arithmetic in the sources is exact over
small rationals), Python exceptions by `Except String`, Python `None`
returns by `Option`/`none`, and the mutable `self.payoff_matrix` field
by explicit state passing.  Position arguments are `Int` because the
Python code accepts arbitrary integers and checks signs explicitly.
-/

namespace HideSeek

/-- `PlaceType` enum from `world.py`: EASY = 1, NEUTRAL = 2, HARD = 3. -/
inductive PlaceType where
  | EASY
  | NEUTRAL
  | HARD
deriving DecidableEq, Repr

/-- `PlayerType` enum from `player.py`: HIDER = 1, SEEKER = 2. -/
inductive PlayerType where
  | HIDER
  | SEEKER
deriving DecidableEq, Repr

/-- Payoff matrices: `numpy` 2-D arrays, modelled as total functions on
indices (entries outside the generated block keep their prior value,
exactly as the Python loops leave them untouched). -/
abbrev Mat := Nat → Nat → ℚ

/-- `np.ones((size, size))`: the all-ones matrix `World1D.__init__` /
`World2D.__init__` start from. -/
def onesMatrix : Mat := fun _ _ => 1

/-- `World1D` state: `size`, `places`, the `human_choice` and
`use_proximity` flags inherited from `BaseWorld`, and the mutable
`payoff_matrix` field. -/
structure World1D where
  size : Nat
  places : List PlaceType
  human_choice : PlayerType
  use_proximity : Bool
  payoff_matrix : Mat

/-- The multiplicative factor the body of the `World1D.generate_payoff_matrix`
loops applies to cell `(i, j)`: the three `if`-guarded `*=` statements
(sign flip, EASY doubling off the diagonal, HARD tripling on it).
`places[i]` is read with default `NEUTRAL`; the loops only touch
`i < size` and construction makes `places` have length `size`. -/
def World1D.cellFactor (w : World1D) (i j : Nat) : ℚ :=
  (if (i = j ∧ w.human_choice = PlayerType.HIDER) ∨
      (i ≠ j ∧ w.human_choice = PlayerType.SEEKER) then (-1 : ℚ) else 1) *
  (if i ≠ j ∧ w.places.getD i PlaceType.NEUTRAL = PlaceType.EASY then 2 else 1) *
  (if i = j ∧ w.places.getD i PlaceType.NEUTRAL = PlaceType.HARD then 3 else 1)

/-- `World1D.generate_payoff_matrix`: multiplies every in-range cell of the
current `payoff_matrix` by its factor (the loops use `*=`, so the previous
contents are NOT discarded).  The Python method body has no `return`
statement, so the value handed back to a caller is `None`: the first
component of the result is that returned value, the second is the new
state of `self.payoff_matrix`. -/
def World1D.generate_payoff_matrix (w : World1D) : Option Mat × Mat :=
  (none,
   fun i j =>
     if i < w.size ∧ j < w.size then w.payoff_matrix i j * w.cellFactor i j
     else w.payoff_matrix i j)

/-- `World1D.__init__` with the random `places` draw supplied as an
argument: sets `payoff_matrix` to ones and then runs
`generate_payoff_matrix` once. -/
def World1D.init (size : Nat) (places : List PlaceType)
    (human_choice : PlayerType) (use_proximity : Bool) : World1D :=
  let w0 : World1D := ⟨size, places, human_choice, use_proximity, onesMatrix⟩
  { w0 with payoff_matrix := w0.generate_payoff_matrix.2 }

/-- `World1D.apply_proximity_score`. -/
def World1D.apply_proximity_score (base_score : ℚ)
    (hider_pos seeker_pos : Int) : ℚ :=
  let diff := (hider_pos - seeker_pos).natAbs
  if diff = 1 then base_score * (1 / 2)
  else if diff = 2 then base_score * (3 / 4)
  else base_score

/-- `World1D.get_score`: bounds check raising
`ValueError("Position out of bounds")`, then the matrix lookup, then the
optional proximity adjustment. -/
def World1D.get_score (w : World1D) (hider_pos seeker_pos : Int) :
    Except String ℚ :=
  if hider_pos < 0 ∨ seeker_pos < 0 ∨ hider_pos ≥ (w.size : Int) ∨
      seeker_pos ≥ (w.size : Int) then
    .error "Position out of bounds"
  else
    let score := w.payoff_matrix hider_pos.toNat seeker_pos.toNat
    .ok (if w.use_proximity then
           World1D.apply_proximity_score score hider_pos seeker_pos
         else score)

/-- `World1D.get_place_type`. -/
def World1D.get_place_type (w : World1D) (position : Int) :
    Except String PlaceType :=
  if position < 0 ∨ position ≥ (w.size : Int) then
    .error "Position out of bounds"
  else
    .ok (w.places.getD position.toNat PlaceType.NEUTRAL)

/-- `World2D` state: `rows`, `cols`, `size = rows * cols`, the grid of
`places`, the inherited flags and the mutable `payoff_matrix`. -/
structure World2D where
  rows : Nat
  cols : Nat
  places : List (List PlaceType)
  human_choice : PlayerType
  use_proximity : Bool
  payoff_matrix : Mat

/-- `self.size = rows * cols` set in `World2D.__init__`. -/
def World2D.size (w : World2D) : Nat := w.rows * w.cols

/-- `World2D.pos_to_index`: `row * self.cols + col`. -/
def World2D.pos_to_index (w : World2D) (position : Int × Int) : Int :=
  position.1 * (w.cols : Int) + position.2

/-- `World2D.index_to_pos`: `divmod(index, self.cols)` (Python `divmod`
is floor division, `Int.fdiv`/`Int.fmod`). -/
def World2D.index_to_pos (w : World2D) (index : Int) : Int × Int :=
  (index.fdiv (w.cols : Int), index.fmod (w.cols : Int))

/-- Place of the grid at row `r`, column `c` (defaults `NEUTRAL`; the
loops below only read in-range cells of a fully built grid). -/
def World2D.placeAt (w : World2D) (r c : Nat) : PlaceType :=
  (w.places.getD r []).getD c PlaceType.NEUTRAL

/-- The fresh `score` value the `World2D.generate_payoff_matrix` loop body
computes for cell `(i, j)`, with `(h_row, h_col) = index_to_pos(i)`. -/
def World2D.cellScore (w : World2D) (i j : Nat) : ℚ :=
  let h_row := i / w.cols
  let h_col := i % w.cols
  (if (i = j ∧ w.human_choice = PlayerType.HIDER) ∨
      (i ≠ j ∧ w.human_choice = PlayerType.SEEKER) then (-1 : ℚ) else 1) *
  (if i ≠ j ∧ w.placeAt h_row h_col = PlaceType.EASY then 2 else 1) *
  (if i = j ∧ w.placeAt h_row h_col = PlaceType.HARD then 3 else 1)

/-- `World2D.generate_payoff_matrix`: assigns the freshly computed `score`
to every in-range cell (`self.payoff_matrix[i][j] = score`, no `*=`), and
returns `None` (no `return` statement in the Python body).  The first
component is that returned value, the second the new matrix state. -/
def World2D.generate_payoff_matrix (w : World2D) : Option Mat × Mat :=
  (none,
   fun i j =>
     if i < w.size ∧ j < w.size then w.cellScore i j
     else w.payoff_matrix i j)

/-- `World2D.__init__` with the random grid supplied as an argument. -/
def World2D.init (rows cols : Nat) (places : List (List PlaceType))
    (human_choice : PlayerType) (use_proximity : Bool) : World2D :=
  let w0 : World2D := ⟨rows, cols, places, human_choice, use_proximity, onesMatrix⟩
  { w0 with payoff_matrix := w0.generate_payoff_matrix.2 }

/-- `World2D.apply_proximity_score`: Manhattan distance version. -/
def World2D.apply_proximity_score (base_score : ℚ)
    (hider_pos seeker_pos : Int × Int) : ℚ :=
  let diff := (hider_pos.1 - seeker_pos.1).natAbs + (hider_pos.2 - seeker_pos.2).natAbs
  if diff = 1 then base_score * (1 / 2)
  else if diff = 2 then base_score * (3 / 4)
  else base_score

/-- `World2D.get_score`: converts both positions to linear indices, bounds
checks THE INDICES only (`hider_index < 0 or ... >= self.size`), then
looks up the matrix and applies the optional proximity adjustment. -/
def World2D.get_score (w : World2D) (hider_pos seeker_pos : Int × Int) :
    Except String ℚ :=
  let hider_index := w.pos_to_index hider_pos
  let seeker_index := w.pos_to_index seeker_pos
  if hider_index < 0 ∨ seeker_index < 0 ∨ hider_index ≥ (w.size : Int) ∨
      seeker_index ≥ (w.size : Int) then
    .error "Position out of bounds"
  else
    let score := w.payoff_matrix hider_index.toNat seeker_index.toNat
    .ok (if w.use_proximity then
           World2D.apply_proximity_score score hider_pos seeker_pos
         else score)

/-- `World2D.get_place_type`: unlike `get_score`, this checks the ROW and
COLUMN coordinates against the grid bounds. -/
def World2D.get_place_type (w : World2D) (position : Int × Int) :
    Except String PlaceType :=
  if position.1 < 0 ∨ position.1 ≥ (w.rows : Int) ∨ position.2 < 0 ∨
      position.2 ≥ (w.cols : Int) then
    .error "Position out of bounds"
  else
    .ok (w.placeAt position.1.toNat position.2.toNat)

/-!  `player.py` -/

/-- `Player` base-class state: `player_type`, cumulative `score`, `wins`. -/
structure Player where
  player_type : PlayerType
  score : ℚ
  wins : Nat

/-- `Player.add_score`. -/
def Player.add_score (p : Player) (points : ℚ) : Player :=
  { p with score := p.score + points }

/-- `Player.add_win`. -/
def Player.add_win (p : Player) : Player :=
  { p with wins := p.wins + 1 }

/-- `Player.reset_stats`. -/
def Player.reset_stats (p : Player) : Player :=
  { p with score := 0, wins := 0 }

/-- `Player.__init__`. -/
def Player.init (player_type : PlayerType) : Player :=
  ⟨player_type, 0, 0⟩

/-- `ComputerPlayer` state: the base `Player` fields plus the
`strategy_probabilities` list set by `set_strategy`. -/
structure ComputerPlayer where
  base : Player
  strategy_probabilities : List ℚ

/-- `ComputerPlayer.set_strategy`. -/
def ComputerPlayer.set_strategy (p : ComputerPlayer)
    (probabilities : List ℚ) : ComputerPlayer :=
  { p with strategy_probabilities := probabilities }

/-- `ComputerPlayer.make_move`: the Python body is a `TODO` comment
followed by `pass`, so the call returns `None` for every world and every
stored strategy — no weighted draw is performed and no validation error
is ever raised.  The world argument and any randomness source are
irrelevant to the result. -/
def ComputerPlayer.make_move (_p : ComputerPlayer) (_world : World1D) :
    Option Int :=
  none

/-!  `game_logic.py` -/

/-- `GameLogic` state (over a 1-D world): the world, the two players'
states, `round_number`, `game_over`, and the last stored positions. -/
structure GameLogic where
  world : World1D
  hider : Player
  seeker : Player
  round_number : Nat
  game_over : Bool
  hider_position : Option Int
  seeker_position : Option Int

/-- `GameLogic.__init__`. -/
def GameLogic.init (world : World1D) (hider seeker : Player) : GameLogic :=
  ⟨world, hider, seeker, 0, false, none, none⟩

/-- `GameLogic.play_round`, with the two moves that
`self.hider.make_move(world)` / `self.seeker.make_move(world)` produce
supplied as arguments (they are the round's only inputs; each side's move
source is external to this method).  Stores the positions, computes
`score = world.get_score(...)` (propagating its exception), sets
`found = (hider_pos == seeker_pos)`, updates exactly one player's score
and win count according to `world.human_choice`, increments
`round_number`, and returns `(hider_pos, seeker_pos, score, found)`. -/
def GameLogic.play_round (g : GameLogic) (hider_pos seeker_pos : Int) :
    Except String (GameLogic × (Int × Int × ℚ × Bool)) :=
  let g1 := { g with hider_position := some hider_pos,
                     seeker_position := some seeker_pos }
  match g1.world.get_score hider_pos seeker_pos with
  | .error e => .error e
  | .ok score =>
    let found := hider_pos = seeker_pos
    let g2 :=
      if g1.world.human_choice = PlayerType.HIDER then
        if found then
          { g1 with seeker := (g1.seeker.add_win).add_score (-score) }
        else
          { g1 with hider := (g1.hider.add_win).add_score score }
      else
        if found then
          { g1 with seeker := (g1.seeker.add_win).add_score score }
        else
          { g1 with hider := (g1.hider.add_win).add_score (-score) }
    let g3 := { g2 with round_number := g2.round_number + 1 }
    .ok (g3, (hider_pos, seeker_pos, score, decide found))

/-- `GameLogic.reset_game`. -/
def GameLogic.reset_game (g : GameLogic) : GameLogic :=
  { g with round_number := 0,
           game_over := false,
           hider := g.hider.reset_stats,
           seeker := g.seeker.reset_stats,
           hider_position := none,
           seeker_position := none }

/-- Folding `play_round` over a list of (hider move, seeker move) pairs:
the sequence of rounds a caller such as `Simulation.run` drives.  Fails
as soon as one round fails. -/
def GameLogic.runRounds (g : GameLogic) :
    List (Int × Int) → Except String GameLogic
  | [] => .ok g
  | (hp, sp) :: rest =>
    match g.play_round hp sp with
    | .error e => .error e
    | .ok (g', _) => g'.runRounds rest

/-!  `lp_solver.py`

`scipy.optimize.linprog` is external to the repository; it is modelled as
an oracle value `LinprogResult` (its `success` flag and solution vector
`x`), and the constraint system the code hands to it (`A_ub`, `b_ub`,
`A_eq`, `b_eq`, `bounds`) is embedded as an explicit feasibility
predicate, so that theorems can be conditioned on the solver returning a
point satisfying the constraints it was given. -/

/-- The fields of a `scipy.optimize.linprog` result that `lp_solver.py`
reads: `res.success` and `res.x`. -/
structure LinprogResult where
  success : Bool
  x : List ℚ

/-- Number of columns of a matrix given as a list of rows (`numpy`
arrays are rectangular, so the first row's length is the column count). -/
def numCols (A : List (List ℚ)) : Nat := (A.headD []).length

/-- Entry `A[i][j]` of a list-of-rows matrix (default 0). -/
def entry (A : List (List ℚ)) (i j : Nat) : ℚ := (A.getD i []).getD j 0

/-- `matrix.T` (`numpy` transpose of a rectangular matrix). -/
def transposeMat (A : List (List ℚ)) : List (List ℚ) :=
  (List.range (numCols A)).map (fun j => A.map (fun row => row.getD j 0))

/-- The feasible set of the LP `LPSolver._solve_hider` builds for an
`m×n` matrix, over the decision vector `x = (p_0, …, p_{m-1}, v)`:
`bounds = [(0,1)]*m + [(None,None)]`, `A_eq`: `Σ p_i = 1`, and for every
column `j` the row `A_ub[j] = (-A[:,j], 1)` with `b_ub[j] = 0`, i.e.
`-Σ_i A[i][j]·p_i + v ≤ 0`. -/
def hiderFeasible (A : List (List ℚ)) (x : List ℚ) : Prop :=
  x.length = A.length + 1 ∧
  (∀ i < A.length, 0 ≤ x.getD i 0 ∧ x.getD i 0 ≤ 1) ∧
  (x.take A.length).sum = 1 ∧
  ∀ j < numCols A,
    ((List.range A.length).map (fun i => -(entry A i j) * x.getD i 0)).sum
      + x.getD A.length 0 ≤ 0

/-- The feasible set of the LP `LPSolver._solve_seeker` builds for an
`m×n` matrix, over `x = (q_0, …, q_{n-1}, v)`: `bounds = [(0,1)]*n +
[(None,None)]`, `A_eq`: `Σ q_j = 1`, and for every row `i` the row
`A_ub[i] = (A[i,:], -1)` with `b_ub[i] = 0`, i.e.
`Σ_j A[i][j]·q_j - v ≤ 0`. -/
def seekerFeasible (A : List (List ℚ)) (x : List ℚ) : Prop :=
  x.length = numCols A + 1 ∧
  (∀ j < numCols A, 0 ≤ x.getD j 0 ∧ x.getD j 0 ≤ 1) ∧
  (x.take (numCols A)).sum = 1 ∧
  ∀ i < A.length,
    ((List.range (numCols A)).map (fun j => entry A i j * x.getD j 0)).sum
      - x.getD (numCols A) 0 ≤ 0

/-- `LPSolver._solve_hider` given the oracle's answer: on success it
returns `res.x[:m]`, otherwise the uniform fallback `np.ones(m)/m`. -/
def LPSolver.solve_hider (matrix : List (List ℚ)) (res : LinprogResult) :
    List ℚ :=
  let m := matrix.length
  if res.success then res.x.take m
  else List.replicate m (1 / (m : ℚ))

/-- `LPSolver._solve_seeker` given the oracle's answer: on success it
returns `res.x[:n]` (`n` = column count), otherwise `np.ones(n)/n`. -/
def LPSolver.solve_seeker (matrix : List (List ℚ)) (res : LinprogResult) :
    List ℚ :=
  let n := numCols matrix
  if res.success then res.x.take n
  else List.replicate n (1 / (n : ℚ))

/-- `LPSolver.solve_game`: dispatches on `(player_type, view)` exactly as
the four branches do, transposing the matrix for the mixed cases. -/
def LPSolver.solve_game (payoff_matrix : List (List ℚ))
    (player_type : PlayerType) (view : PlayerType) (res : LinprogResult) :
    List ℚ :=
  match player_type, view with
  | PlayerType.HIDER, PlayerType.HIDER => LPSolver.solve_hider payoff_matrix res
  | PlayerType.SEEKER, PlayerType.SEEKER => LPSolver.solve_hider payoff_matrix res
  | PlayerType.HIDER, PlayerType.SEEKER =>
      LPSolver.solve_seeker (transposeMat payoff_matrix) res
  | PlayerType.SEEKER, PlayerType.HIDER =>
      LPSolver.solve_seeker (transposeMat payoff_matrix) res

/-!  `simulation.py` (fragment used by the claims) -/

/-- The value `Simulation.__init__` binds to its local `payoff_matrix`
on line 32: `payoff_matrix = self.world.generate_payoff_matrix()` —
i.e. the return value of the generator, for a 1-D world. -/
def Simulation.received_payoff_matrix (w : World1D) : Option Mat :=
  w.generate_payoff_matrix.1

/-!  Spec-side properties (stated from the specification's words, to be
compared with the behaviour of the embedded code). -/

/-- Strategy invariant from the spec: length `N`, every entry in
`[0, 1]`, and the entries sum to 1 within tolerance `1e-6`. -/
def validStrategyProp (s : List ℚ) (N : Nat) : Prop :=
  s.length = N ∧ (∀ i < N, 0 ≤ s.getD i 0 ∧ s.getD i 0 ≤ 1) ∧
  |s.sum - 1| ≤ 1 / 1000000

/-- Round-resolution contract from the spec: the returned tuple carries
the two moves, `found ↔` positions coincide; with perspective role =
hider a capture adds `-payoff` to the seeker and a hide adds `+payoff`
to the hider, with perspective role = seeker a capture adds `+payoff`
to the seeker and an escape adds `-payoff` to the hider; exactly the
winning side's win counter grows (the other player's state is
untouched), the round counter grows by one and the positions are
recorded. -/
def roundOutcomeSpec (g : GameLogic) (hp sp : Int) (g' : GameLogic)
    (out : Int × Int × ℚ × Bool) : Prop :=
  out.1 = hp ∧ out.2.1 = sp ∧
  (out.2.2.2 = true ↔ hp = sp) ∧
  (g.world.human_choice = PlayerType.HIDER →
    (out.2.2.2 = true →
      g'.seeker.score = g.seeker.score + (-out.2.2.1) ∧
      g'.seeker.wins = g.seeker.wins + 1 ∧ g'.hider = g.hider) ∧
    (out.2.2.2 = false →
      g'.hider.score = g.hider.score + out.2.2.1 ∧
      g'.hider.wins = g.hider.wins + 1 ∧ g'.seeker = g.seeker)) ∧
  (g.world.human_choice = PlayerType.SEEKER →
    (out.2.2.2 = true →
      g'.seeker.score = g.seeker.score + out.2.2.1 ∧
      g'.seeker.wins = g.seeker.wins + 1 ∧ g'.hider = g.hider) ∧
    (out.2.2.2 = false →
      g'.hider.score = g.hider.score + (-out.2.2.1) ∧
      g'.hider.wins = g.hider.wins + 1 ∧ g'.seeker = g.seeker)) ∧
  g'.round_number = g.round_number + 1 ∧
  g'.hider_position = some hp ∧ g'.seeker_position = some sp

/-!  Concrete instances used by concrete theorems and witnesses. -/

/-- 1-D world of size 4, all places NEUTRAL, perspective = hider,
proximity disabled (the spec's concrete round-correctness scenario). -/
def wNeutral4 : World1D :=
  World1D.init 4 [PlaceType.NEUTRAL, PlaceType.NEUTRAL, PlaceType.NEUTRAL,
    PlaceType.NEUTRAL] PlayerType.HIDER false

/-- Same scenario with place 0 EASY instead. -/
def wEasy4 : World1D :=
  World1D.init 4 [PlaceType.EASY, PlaceType.NEUTRAL, PlaceType.NEUTRAL,
    PlaceType.NEUTRAL] PlayerType.HIDER false

/-- 1-D world of size 2, all NEUTRAL, perspective = hider. -/
def wNeutral2 : World1D :=
  World1D.init 2 [PlaceType.NEUTRAL, PlaceType.NEUTRAL] PlayerType.HIDER false

/-- 2×2 all-NEUTRAL grid world, perspective = hider, proximity off. -/
def gridNeutral2x2 : World2D :=
  World2D.init 2 2 [[PlaceType.NEUTRAL, PlaceType.NEUTRAL],
    [PlaceType.NEUTRAL, PlaceType.NEUTRAL]] PlayerType.HIDER false

/-- Fresh game on `wNeutral2` with zeroed players. -/
def gStart : GameLogic :=
  GameLogic.init wNeutral2 (Player.init PlayerType.HIDER)
    (Player.init PlayerType.SEEKER)

/-- The game state after `gStart` plays one round with hider at 0 and
seeker at 1 (hider escapes, payoff 1). -/
def gAfter : GameLogic :=
  ⟨wNeutral2, ⟨PlayerType.HIDER, 1, 1⟩, ⟨PlayerType.SEEKER, 0, 0⟩, 1, false,
    some 0, some 1⟩

/-!  Helper lemmas. -/

lemma getD_take_eq (l : List ℚ) (n i : Nat) (h : i < n) :
    (l.take n).getD i 0 = l.getD i 0 := by
  rw [List.getD_eq_getElem?_getD, List.getD_eq_getElem?_getD,
    List.getElem?_take_of_lt h]

lemma getD_replicate_eq (n i : Nat) (a : ℚ) (h : i < n) :
    (List.replicate n a).getD i 0 = a := by
  rw [List.getD_eq_getElem?_getD, List.getElem?_replicate]
  simp [h]

lemma sum_replicate_uniform (n : Nat) (h : 0 < n) :
    (List.replicate n (1 / (n : ℚ))).sum = 1 := by
  rw [List.sum_replicate, nsmul_eq_mul]
  field_simp

lemma numCols_transposeMat (A : List (List ℚ)) (h : 0 < numCols A) :
    numCols (transposeMat A) = A.length := by
  obtain ⟨k, hk⟩ : ∃ k, numCols A = k + 1 := ⟨numCols A - 1, by omega⟩
  unfold numCols at hk ⊢
  unfold transposeMat numCols
  rw [hk, List.range_succ_eq_map, List.map_cons, List.headD_cons,
    List.length_map]

lemma uniformOrTakeProps (N : Nat) (res : LinprogResult) (hN : 0 < N)
    (hres : res.success = true →
      res.x.length = N + 1 ∧
      (∀ i < N, 0 ≤ res.x.getD i 0 ∧ res.x.getD i 0 ≤ 1) ∧
      |(res.x.take N).sum - 1| ≤ 1 / 1000000) :
    validStrategyProp
      (if res.success then res.x.take N
       else List.replicate N (1 / (N : ℚ))) N := by
  unfold validStrategyProp
  cases hs : res.success with
  | true =>
    obtain ⟨hlen, hbd, hsum⟩ := hres hs
    simp only [hs, reduceIte]
    refine ⟨by simp [hlen], ?_, hsum⟩
    intro i hi
    rw [getD_take_eq _ _ _ hi]
    exact hbd i hi
  | false =>
    simp only [hs, Bool.false_eq_true, reduceIte]
    have hinv0 : (0 : ℚ) ≤ 1 / (N : ℚ) := by positivity
    have hinv1 : (1 : ℚ) / (N : ℚ) ≤ 1 := by
      rw [div_le_one (by exact_mod_cast hN)]
      exact_mod_cast hN
    refine ⟨by simp, ?_, ?_⟩
    · intro i hi
      rw [getD_replicate_eq _ _ _ hi]
      exact ⟨hinv0, hinv1⟩
    · rw [sum_replicate_uniform N hN]
      norm_num

lemma take_one_of_len_two (x : List ℚ) (hlen : x.length = 2) :
    x.take 1 = [x.getD 0 0] := by
  rcases x with _ | ⟨x0, x⟩ <;> simp_all

lemma hiderFeasible_pair (a : ℚ) : hiderFeasible [[a]] [1, a] := by
  have hnum : numCols [[a]] = 1 := rfl
  have hr1 : List.range 1 = [0] := rfl
  refine ⟨by simp, ?_, by simp, ?_⟩
  · intro i hi
    obtain rfl : i = 0 := Nat.lt_one_iff.mp (by simpa using hi)
    norm_num
  · intro j hj
    obtain rfl : j = 0 := Nat.lt_one_iff.mp (by simpa [hnum] using hj)
    simp only [List.length_singleton, hr1, List.map_cons, List.map_nil,
      List.sum_cons, List.sum_nil, entry, List.getD_cons_zero,
      List.getD_cons_succ]
    linarith

lemma seekerFeasible_pair (a : ℚ) : seekerFeasible [[a]] [1, a] := by
  have hnum : numCols [[a]] = 1 := rfl
  have hr1 : List.range 1 = [0] := rfl
  refine ⟨by simp [hnum], ?_, by simp [hnum], ?_⟩
  · intro j hj
    obtain rfl : j = 0 := Nat.lt_one_iff.mp (by simpa [hnum] using hj)
    norm_num
  · intro i hi
    obtain rfl : i = 0 := Nat.lt_one_iff.mp (by simpa using hi)
    simp only [List.length_singleton, hnum, hr1, List.map_cons,
      List.map_nil, List.sum_cons, List.sum_nil, entry, List.getD_cons_zero,
      List.getD_cons_succ]
    linarith

lemma play_round_step (g : GameLogic) (hp sp : Int) (g' : GameLogic)
    (out : Int × Int × ℚ × Bool)
    (h : g.play_round hp sp = Except.ok (g', out)) :
    g'.hider.wins + g'.seeker.wins = g.hider.wins + g.seeker.wins + 1 ∧
    g'.round_number = g.round_number + 1 := by
  simp only [GameLogic.play_round] at h
  cases hsc : (g.world.get_score hp sp) with
  | error e => rw [hsc] at h; exact absurd h (by simp)
  | ok score =>
    rw [hsc] at h
    by_cases hps : hp = sp <;> cases hhc : g.world.human_choice <;>
      simp only [hps, hhc, if_true, if_false, reduceIte,
        Except.ok.injEq, Prod.mk.injEq] at h <;>
      obtain ⟨h1, h2⟩ := h <;> subst h1 <;> subst h2 <;>
      simp [Player.add_win, Player.add_score] <;> omega

lemma runRounds_invariant : ∀ (ms : List (Int × Int)) (g g' : GameLogic),
    g.runRounds ms = Except.ok g' →
    g.hider.wins + g.seeker.wins = g.round_number →
    g'.hider.wins + g'.seeker.wins = g'.round_number := by
  intro ms
  induction ms with
  | nil =>
    intro g g' h hI
    simp only [GameLogic.runRounds, Except.ok.injEq] at h
    exact h ▸ hI
  | cons m rest ih =>
    intro g g' h hI
    obtain ⟨hp, sp⟩ := m
    simp only [GameLogic.runRounds] at h
    cases hpr : g.play_round hp sp with
    | error e => rw [hpr] at h; exact absurd h (by simp)
    | ok p =>
      rw [hpr] at h
      obtain ⟨g1, out⟩ := p
      obtain ⟨hsum, hrn⟩ := play_round_step g hp sp g1 out hpr
      exact ih g1 g' h (by omega)

/-!  Claim theorems. -/

/-- C1: the claim says `generate_payoff_matrix()` returns the full N×N
payoff matrix to its caller.  The method does compute every pairwise
score into `self.payoff_matrix`, but its body has no `return`
statement, so for every 1-D and 2-D world the value it hands back —
in particular the value `Simulation.__init__` binds to its local
`payoff_matrix` — is `None`, contradicting the claim and the method's
own docstring. -/
theorem claim1_generate_matrix_returns_none :
    ∀ (w1 : World1D) (w2 : World2D),
      w1.generate_payoff_matrix.1 = none ∧
      w2.generate_payoff_matrix.1 = none ∧
      Simulation.received_payoff_matrix w1 = none :=
  fun _ _ => ⟨rfl, rfl, rfl⟩

/-- C2: whenever `play_round` succeeds, the returned tuple and the state
update satisfy the spec's round-resolution contract: with perspective
role = hider a capture adds `-payoff` to the seeker's score and a hide
adds `+payoff` to the hider's; with perspective role = seeker a capture
adds `+payoff` to the seeker's score and an escape adds `-payoff` to
the hider's; exactly the winning side's win counter is incremented
(seeker wins iff found), the round counter grows by one, and both
positions are recorded. -/
theorem claim2_play_round_updates (g : GameLogic) (hp sp : Int)
    (g' : GameLogic) (out : Int × Int × ℚ × Bool)
    (h : g.play_round hp sp = Except.ok (g', out)) :
    roundOutcomeSpec g hp sp g' out := by
  simp only [GameLogic.play_round] at h
  cases hsc : (g.world.get_score hp sp) with
  | error e => rw [hsc] at h; exact absurd h (by simp)
  | ok score =>
    rw [hsc] at h
    by_cases hps : hp = sp <;> cases hhc : g.world.human_choice <;>
      simp only [hps, hhc, if_true, if_false, reduceIte,
        Except.ok.injEq, Prod.mk.injEq] at h <;>
      obtain ⟨h1, h2⟩ := h <;> subst h1 <;> subst h2 <;>
      simp [roundOutcomeSpec, hhc, hps, Player.add_win, Player.add_score]

/-- C2 witness: a concrete successful round (hider at 0, seeker at 1 in
`wNeutral2`) realises the hypothesis and the contract. -/
theorem claim2_play_round_updates_witness :
    gStart.play_round 0 1 = Except.ok (gAfter, (0, 1, 1, false)) ∧
    roundOutcomeSpec gStart 0 1 gAfter (0, 1, 1, false) := by
  have he : gStart.play_round 0 1 = Except.ok (gAfter, (0, 1, 1, false)) := by
    norm_num [gStart, GameLogic.init, GameLogic.play_round, wNeutral2,
      World1D.init, World1D.get_score, World1D.generate_payoff_matrix,
      World1D.cellFactor, onesMatrix, Player.init, Player.add_win,
      Player.add_score, gAfter] <;> decide
  exact ⟨he, claim2_play_round_updates gStart 0 1 gAfter (0, 1, 1, false) he⟩

/-- C3: concrete scoring scenario — size-4 all-NEUTRAL 1-D world,
perspective = hider, proximity off: `score(1,1) = -1`, `score(0,1) = 1`;
with place 0 EASY instead, `score(0,2) = 2`. -/
theorem claim3_concrete_scores :
    wNeutral4.get_score 1 1 = Except.ok (-1) ∧
    wNeutral4.get_score 0 1 = Except.ok 1 ∧
    wEasy4.get_score 0 2 = Except.ok 2 := by
  norm_num [wNeutral4, wEasy4, World1D.init, World1D.get_score,
    World1D.generate_payoff_matrix, World1D.cellFactor, onesMatrix] <;>
    decide

/-- C4: for every square N×N matrix (N ≥ 1), both roles and both views,
`solve_game` returns a list of length N with all entries in [0,1] whose
sum is 1 within 1e-6, provided that when `linprog` reports success its
solution vector respects the bounds and equality constraint the code
gave it (within the same tolerance); and when `linprog` fails, the
uniform distribution over the N positions is returned — the embedding
is a total function, so no exception propagates. -/
theorem claim4_solver_returns_valid_strategy (A : List (List ℚ))
    (player_type view : PlayerType) (res : LinprogResult)
    (hN : 0 < A.length) (hsq : numCols A = A.length)
    (hres : res.success = true →
      res.x.length = A.length + 1 ∧
      (∀ i < A.length, 0 ≤ res.x.getD i 0 ∧ res.x.getD i 0 ≤ 1) ∧
      |(res.x.take A.length).sum - 1| ≤ 1 / 1000000) :
    validStrategyProp (LPSolver.solve_game A player_type view res)
      A.length ∧
    (res.success = false →
      LPSolver.solve_game A player_type view res =
        List.replicate A.length (1 / (A.length : ℚ))) := by
  have hcols : 0 < numCols A := hsq ▸ hN
  have htr : numCols (transposeMat A) = A.length :=
    numCols_transposeMat A hcols
  have key := uniformOrTakeProps A.length res hN hres
  cases player_type <;> cases view <;>
    simp only [LPSolver.solve_game, LPSolver.solve_hider,
      LPSolver.solve_seeker, htr] <;>
    exact ⟨key, fun hf => by simp [hf]⟩

/-- C4 witness: the 1×1 matrix `[[0]]` with a failed solver run takes
the uniform fallback and still yields a valid strategy. -/
theorem claim4_solver_returns_valid_strategy_witness :
    (0 : Nat) < [[(0 : ℚ)]].length ∧
    validStrategyProp
      (LPSolver.solve_game [[(0 : ℚ)]] PlayerType.HIDER PlayerType.HIDER
        ⟨false, []⟩) [[(0 : ℚ)]].length :=
  ⟨by decide,
   (claim4_solver_returns_valid_strategy [[(0 : ℚ)]] PlayerType.HIDER
     PlayerType.HIDER ⟨false, []⟩ (by decide) rfl (by simp)).1⟩

/-- C5: the claim says a second `generate_payoff_matrix()` call on an
unmutated world yields an identical matrix.  For 1-D worlds the loop
body multiplies into the existing matrix (`*=`), so a second call
changes it: in `wNeutral2`, entry (0,0) is -1 after construction and 1
after the second call.  `Simulation.__init__` actually performs that
second call on an already-constructed world.  (The 2-D version assigns
fresh scores and is unaffected.) -/
theorem claim5_second_generate_differs :
    wNeutral2.payoff_matrix 0 0 = -1 ∧
    wNeutral2.generate_payoff_matrix.2 0 0 = 1 := by
  norm_num [wNeutral2, World1D.init, World1D.generate_payoff_matrix,
    World1D.cellFactor, onesMatrix] <;> decide

/-- C6 counterexample: in the 2×2 grid, the coordinate pair (0,2) lies
outside the grid — `get_place_type` rejects it — yet `get_score`
accepts it and silently remaps it to position (1,0), because the bounds
check only looks at the linear index 0*2+2 = 2 < 4. -/
theorem claim6_counterexample :
    gridNeutral2x2.get_score (0, 2) (0, 0) = Except.ok 1 ∧
    gridNeutral2x2.get_score (0, 2) (0, 0) =
      gridNeutral2x2.get_score (1, 0) (0, 0) ∧
    gridNeutral2x2.get_place_type (0, 2) =
      Except.error "Position out of bounds" := by
  norm_num [gridNeutral2x2, World2D.init, World2D.get_score,
    World2D.get_place_type, World2D.generate_payoff_matrix,
    World2D.cellScore, World2D.pos_to_index, World2D.size, World2D.placeAt,
    onesMatrix] <;> decide

/-- C6 amended: `get_score` raises exactly when a bound is violated, but
the bound checked for a 2-D world is on the linear index
`row*cols + col`, not on the row and column separately — coordinates
outside the grid whose linear index lands in `[0, rows*cols)` are
silently remapped.  For 1-D worlds the check is exactly on the supplied
positions. -/
theorem claim6_out_of_range_exact :
    ∀ (w1 : World1D) (hp sp : Int) (w2 : World2D) (p q : Int × Int),
      (w1.get_score hp sp = Except.error "Position out of bounds" ↔
        hp < 0 ∨ sp < 0 ∨ (w1.size : Int) ≤ hp ∨ (w1.size : Int) ≤ sp) ∧
      (w2.get_score p q = Except.error "Position out of bounds" ↔
        w2.pos_to_index p < 0 ∨ w2.pos_to_index q < 0 ∨
        (w2.size : Int) ≤ w2.pos_to_index p ∨
        (w2.size : Int) ≤ w2.pos_to_index q) := by
  intro w1 hp sp w2 p q
  constructor
  · simp only [World1D.get_score, ge_iff_le]
    split_ifs with h
    · simpa using h
    · simpa using h
  · simp only [World2D.get_score, ge_iff_le]
    split_ifs with h
    · simpa using h
    · simpa using h

/-- C7: the claim says the computer player's move draw samples an index
according to the strategy weights and validates the strategy.  The
method body of `ComputerPlayer.make_move` is a TODO comment followed by
`pass`, so it returns `None` for every player and every world: no draw
is performed and no `InvalidStrategyError` is ever raised, contradicting
the claim and the method's docstring. -/
theorem claim7_make_move_returns_none :
    ∀ (p : ComputerPlayer) (w : World1D), p.make_move w = none :=
  fun _ _ => rfl

/-- C8: on a 1×1 matrix `[[a]]`, for every role and view, any successful
solver run whose solution is feasible for the constraints the code
built yields the trivial strategy `[1]`; moreover the LP is feasible
(witness `[1, a]` for both formulations) and its objective is bounded
(`v ≤ a` in the hider LP, `a ≤ v` in the seeker LP), so a correct LP
solver does not take the failure/fallback path. -/
theorem claim8_one_by_one_strategy (a : ℚ) (player_type view : PlayerType)
    (res : LinprogResult) (hs : res.success = true)
    (hf : hiderFeasible [[a]] res.x ∨ seekerFeasible [[a]] res.x) :
    LPSolver.solve_game [[a]] player_type view res = [1] ∧
    hiderFeasible [[a]] [1, a] ∧ seekerFeasible [[a]] [1, a] ∧
    (∀ x : List ℚ, hiderFeasible [[a]] x → x.getD 1 0 ≤ a) ∧
    (∀ x : List ℚ, seekerFeasible [[a]] x → a ≤ x.getD 1 0) := by
  have hnum : numCols [[a]] = 1 := rfl
  have htr : transposeMat [[a]] = [[a]] := rfl
  have hr1 : List.range 1 = [0] := rfl
  have hone : res.x.take 1 = [1] := by
    rcases hf with hfh | hfs
    · obtain ⟨hlen, _, hsum, _⟩ := hfh
      simp only [List.length_singleton] at hlen hsum
      rw [take_one_of_len_two res.x hlen] at hsum ⊢
      simp only [List.sum_singleton] at hsum
      rw [hsum]
    · obtain ⟨hlen, _, hsum, _⟩ := hfs
      simp only [hnum] at hlen hsum
      rw [take_one_of_len_two res.x hlen] at hsum ⊢
      simp only [List.sum_singleton] at hsum
      rw [hsum]
  refine ⟨?_, hiderFeasible_pair a, seekerFeasible_pair a, ?_, ?_⟩
  · cases player_type <;> cases view <;>
      simp only [LPSolver.solve_game, LPSolver.solve_hider,
        LPSolver.solve_seeker, htr, hs, reduceIte, hnum] <;>
      simpa using hone
  · intro x hx
    obtain ⟨hlen, _, hsum, hcon⟩ := hx
    have h0 := hcon 0 (by simp [hnum])
    simp only [List.length_singleton] at hlen hsum
    rw [take_one_of_len_two x hlen] at hsum
    simp only [List.sum_singleton] at hsum
    simp only [List.length_singleton, hr1, List.map_cons, List.map_nil,
      List.sum_cons, List.sum_nil, entry, List.getD_cons_zero, hsum] at h0
    linarith
  · intro x hx
    obtain ⟨hlen, _, hsum, hcon⟩ := hx
    have h0 := hcon 0 (by simp)
    simp only [hnum] at hlen hsum
    rw [take_one_of_len_two x hlen] at hsum
    simp only [List.sum_singleton] at hsum
    simp only [hnum, hr1, List.map_cons, List.map_nil, List.sum_cons,
      List.sum_nil, entry, List.getD_cons_zero, hsum] at h0
    linarith

/-- C8 witness: the solver run `⟨true, [1, 0]⟩` on `[[0]]` is feasible
for the hider LP and produces `[1]`. -/
theorem claim8_one_by_one_strategy_witness :
    (⟨true, [1, 0]⟩ : LinprogResult).success = true ∧
    LPSolver.solve_game [[(0 : ℚ)]] PlayerType.HIDER PlayerType.HIDER
      ⟨true, [1, 0]⟩ = [1] :=
  ⟨rfl, (claim8_one_by_one_strategy 0 PlayerType.HIDER PlayerType.HIDER
    ⟨true, [1, 0]⟩ rfl (Or.inl (hiderFeasible_pair 0))).1⟩

/-- C9: `pos_to_index` and `index_to_pos` are mutually inverse on the
grid — every in-range (row, col) round-trips through the linear index,
and every linear index in `[0, rows*cols)` round-trips through the
coordinate pair. -/
theorem claim9_pos_index_bijection (w : World2D) :
    (∀ r c : Int, 0 ≤ r → r < (w.rows : Int) → 0 ≤ c → c < (w.cols : Int) →
      w.index_to_pos (w.pos_to_index (r, c)) = (r, c)) ∧
    (∀ idx : Int, 0 ≤ idx → idx < (w.size : Int) →
      w.pos_to_index (w.index_to_pos idx) = idx) := by
  constructor
  · intro r c hr0 hr hc0 hc
    have hcols : (0 : Int) < (w.cols : Int) := lt_of_le_of_lt hc0 hc
    simp only [World2D.index_to_pos, World2D.pos_to_index]
    rw [Int.fdiv_eq_ediv _ (le_of_lt hcols), Int.fmod_eq_emod _ (le_of_lt hcols)]
    have h1 : (r * (w.cols : Int) + c) / (w.cols : Int) = r := by
      rw [add_comm, Int.add_mul_ediv_right _ _ (ne_of_gt hcols),
        Int.ediv_eq_zero_of_lt hc0 hc, zero_add]
    have h2 : (r * (w.cols : Int) + c) % (w.cols : Int) = c := by
      rw [add_comm, Int.add_mul_emod_self, Int.emod_eq_of_lt hc0 hc]
    rw [h1, h2]
  · intro idx h0 hs
    have hcols : (0 : Int) < (w.cols : Int) := by
      rcases Nat.eq_zero_or_pos w.cols with h | h
      · exfalso
        have : w.size = 0 := by simp [World2D.size, h]
        omega
      · exact_mod_cast h
    simp only [World2D.index_to_pos, World2D.pos_to_index]
    rw [Int.fdiv_eq_ediv _ (le_of_lt hcols), Int.fmod_eq_emod _ (le_of_lt hcols)]
    have := Int.ediv_add_emod idx (w.cols : Int)
    linarith

/-- C9 witness: both round-trips at concrete in-range inputs of the 2×2
grid. -/
theorem claim9_pos_index_bijection_witness :
    gridNeutral2x2.index_to_pos (gridNeutral2x2.pos_to_index (1, 1)) =
      (1, 1) ∧
    gridNeutral2x2.pos_to_index (gridNeutral2x2.index_to_pos 2) = 2 :=
  ⟨(claim9_pos_index_bijection gridNeutral2x2).1 1 1 (by decide) (by decide)
      (by decide) (by decide),
   (claim9_pos_index_bijection gridNeutral2x2).2 2 (by decide) (by decide)⟩

/-- C10: starting from zeroed win counts and round counter, after any
sequence of successful `play_round` calls the hider's and seeker's win
counts sum to the round counter; and `reset_game` restores the round
counter, both win counts and both scores to zero. -/
theorem claim10_wins_round_invariant (g : GameLogic)
    (ms : List (Int × Int)) (g' : GameLogic) (hh : g.hider.wins = 0)
    (hs : g.seeker.wins = 0) (hr : g.round_number = 0)
    (h : g.runRounds ms = Except.ok g') :
    g'.hider.wins + g'.seeker.wins = g'.round_number ∧
    ∀ gr : GameLogic,
      gr.reset_game.round_number = 0 ∧ gr.reset_game.hider.wins = 0 ∧
      gr.reset_game.seeker.wins = 0 ∧ gr.reset_game.hider.score = 0 ∧
      gr.reset_game.seeker.score = 0 := by
  refine ⟨runRounds_invariant ms g g' h (by omega), ?_⟩
  intro gr
  simp [GameLogic.reset_game, Player.reset_stats]

/-- C10 witness: one concrete successful round from the fresh game
`gStart` realises the hypotheses and the invariant. -/
theorem claim10_wins_round_invariant_witness :
    gStart.runRounds [(0, 1)] = Except.ok gAfter ∧
    gAfter.hider.wins + gAfter.seeker.wins = gAfter.round_number := by
  have he : gStart.runRounds [(0, 1)] = Except.ok gAfter := by
    norm_num [gStart, GameLogic.init, GameLogic.runRounds,
      GameLogic.play_round, wNeutral2, World1D.init, World1D.get_score,
      World1D.generate_payoff_matrix, World1D.cellFactor, onesMatrix,
      Player.init, Player.add_win, Player.add_score, gAfter] <;> decide
  exact ⟨he,
    (claim10_wins_round_invariant gStart [(0, 1)] gAfter rfl rfl rfl he).1⟩

end HideSeek
